import Mathlib

/-!
Verification of the OAuth2 token-lifecycle core of a small Flask relay
application (`app.py`).

The embedding models the Python code directly:

* the Flask `session` dict becomes `Session`, with the two keys the code
  uses (`oauth_credentials`, `oauth_expiration`) as `Option` fields;
* a provider token response (`token_response.json`) becomes
  `Option OAuthResponse` — `none` models an unparseable body (the old
  `requests` `.json` property yields `None` there), and each field of
  `OAuthResponse` is an `Option` because the raw JSON dict may lack it;
* Python exceptions (`KeyError` from a missing session key,
  `TypeError` from `None - 15`, `AttributeError` from `None.get`,
  transport errors raised by `requests`) become `Except PyError`;
* `datetime.now()` becomes an explicit `now : Int` (seconds);
* network nondeterminism is an oracle `Env`: `tokenResults k` is the
  outcome of the k-th token-endpoint POST of the invocation, and
  `callResults k tok` the response to the k-th protected GET carrying
  bearer token `tok`;
* to make "how many exchanges / protected calls happened, and in which
  order" observable, each function additionally returns the list of
  network `Event`s it performed, in order.
-/

/-- Python exceptions that the modelled code can raise. -/
inductive PyError
  | keyError
  | typeError
  | attributeError
  | transportError
  deriving Repr, DecidableEq

/-- The parsed JSON body of a token-endpoint response.  Every field is
optional because the provider's JSON is not validated anywhere in the code. -/
structure OAuthResponse where
  access_token : Option String
  refresh_token : Option String
  expires_in : Option Int
  deriving Repr, DecidableEq

/-- The per-browser-client Flask session, restricted to the two keys the
code reads and writes. -/
structure Session where
  oauth_credentials : Option OAuthResponse
  oauth_expiration : Option Int
  deriving Repr, DecidableEq

/-- A `requests` response object for the protected folder call:
`status_code`, and the `.json` property (`none` when unparseable). -/
structure ApiResponse where
  status_code : Nat
  json : Option String
  deriving Repr, DecidableEq

/-- One observable network action performed during an invocation. -/
inductive Event
  | tokenExchange (idx : Nat)
  | protectedCall (idx : Nat) (bearer : String)
  deriving Repr, DecidableEq

/-- The outcome of one `requests.post` to the token endpoint:
either the transport raised, or a response arrived whose parsed JSON body
is `body` (`none` if the body was not parseable JSON). -/
inductive TransportResult
  | failure (e : PyError)
  | response (body : Option OAuthResponse)
  deriving Repr, DecidableEq

/-- The network oracle for one wrapper invocation. -/
structure Env where
  tokenResults : Nat → TransportResult
  callResults : Nat → String → ApiResponse

/-- Embeds `get_token` (app.py lines 125-140): builds the form-encoded
POST and returns `token_response.json` as-is.  A transport exception
propagates; otherwise the parsed body is returned with no validation of
any field. -/
def get_token (tr : TransportResult) : Except PyError (Option OAuthResponse) :=
  match tr with
  | .failure e => .error e
  | .response body => .ok body

/-- Embeds `set_oauth_credentials` (app.py lines 111-122).  Computes
`datetime.now() + timedelta(seconds=expires_in - 15)` — which raises
`AttributeError` when the response is `None` (`.get` on `None`) and
`TypeError` when `expires_in` is absent (`None - 15`) — before either
session key is written; on success it writes `oauth_expiration` and then
`oauth_credentials`.  Returns the outcome together with the session as it
stands afterwards (unchanged when an exception was raised). -/
def set_oauth_credentials (s : Session) (now : Int) (resp : Option OAuthResponse) :
    Except PyError Unit × Session :=
  match resp with
  | none => (.error .attributeError, s)
  | some r =>
    match r.expires_in with
    | none => (.error .typeError, s)
    | some n => (.ok (), ⟨some r, some (now + (n - 15))⟩)

/-- Embeds `oauth_credentials_are_expired` (app.py lines 97-98):
`datetime.now() > session['oauth_expiration']`; raises `KeyError` when the
session lacks the expiration key. -/
def oauth_credentials_are_expired (s : Session) (now : Int) : Except PyError Bool :=
  match s.oauth_expiration with
  | none => .error .keyError
  | some e => .ok (decide (now > e))

/-- Embeds `refresh_oauth_credentials` (app.py lines 101-108): reads the
stored refresh token (`KeyError` if either session key is absent, before
any network traffic), performs the token-endpoint exchange via
`get_token`, and persists via `set_oauth_credentials`.  The trace records
the exchange (as `Event.tokenExchange idx`) exactly when the POST was
actually attempted. -/
def refresh_oauth_credentials (s : Session) (now : Int) (exchange : TransportResult)
    (idx : Nat) : Except PyError Unit × Session × List Event :=
  match s.oauth_credentials with
  | none => (.error .keyError, s, [])
  | some c =>
    match c.refresh_token with
    | none => (.error .keyError, s, [])
    | some _ =>
      match get_token exchange with
      | .error e => (.error e, s, [Event.tokenExchange idx])
      | .ok resp =>
        match set_oauth_credentials s now resp with
        | (.error e, s1) => (.error e, s1, [Event.tokenExchange idx])
        | (.ok u, s1) => (.ok u, s1, [Event.tokenExchange idx])

/-- Embeds the body of `get_box_folder` (app.py lines 84-94), the protected
call: reads `session['oauth_credentials']['access_token']` (`KeyError`
before any network traffic when absent) and issues the GET with that
bearer token.  Returns the bearer actually used together with the
response, so the trace can record it. -/
def get_box_folder_body (s : Session) (http : String → ApiResponse) :
    Except PyError (String × ApiResponse) :=
  match s.oauth_credentials with
  | none => .error .keyError
  | some c =>
    match c.access_token with
    | none => .error .keyError
    | some tok => .ok (tok, http tok)

/-- The part of `checked_auth` (app.py lines 71-80) after the proactive
step: first protected call, reactive refresh on 401, single retry.
`k` is the index of the next token exchange (1 when a proactive exchange
already happened, 0 otherwise); `tr` the events so far. -/
def afterFirstCall (env : Env) (now : Int) (s1 : Session) (k : Nat) (tr : List Event) :
    Except PyError ApiResponse × Session × List Event :=
  match get_box_folder_body s1 (env.callResults 0) with
  | .error e => (.error e, s1, tr)
  | .ok (tok, resp) =>
    if resp.status_code == 401 then
      match refresh_oauth_credentials s1 now (env.tokenResults k) k with
      | (.error e, s2, tr2) => (.error e, s2, (tr ++ [Event.protectedCall 0 tok]) ++ tr2)
      | (.ok _, s2, tr2) =>
        match get_box_folder_body s2 (env.callResults 1) with
        | .error e => (.error e, s2, (tr ++ [Event.protectedCall 0 tok]) ++ tr2)
        | .ok (tok2, resp2) =>
          (.ok resp2, s2,
            (tr ++ [Event.protectedCall 0 tok]) ++ tr2 ++ [Event.protectedCall 1 tok2])
    else
      (.ok resp, s1, tr ++ [Event.protectedCall 0 tok])

/-- Embeds `checked_auth`, the closure built by the decorator
`refresh_access_token_if_needed` (app.py lines 61-81) applied to
`get_box_folder`: proactive refresh when the stored expiration is in the
past, one protected call, reactive refresh plus one retry on 401. -/
def checked_auth (env : Env) (now : Int) (s : Session) :
    Except PyError ApiResponse × Session × List Event :=
  match oauth_credentials_are_expired s now with
  | .error e => (.error e, s, [])
  | .ok expired =>
    if expired then
      match refresh_oauth_credentials s now (env.tokenResults 0) 0 with
      | (.error e, s1, tr0) => (.error e, s1, tr0)
      | (.ok _, s1, tr0) => afterFirstCall env now s1 1 tr0
    else
      afterFirstCall env now s 0 []

/-- The outward-visible result of the `/box-folder/<id>` route. -/
inductive RouteResult
  | redirectLogin
  | page (access_token : String) (api_response : ApiResponse)
  | serverError (e : PyError)
  deriving Repr, DecidableEq

/-- Embeds `requires_auth` (app.py lines 11-19): redirect to the login
route when the session holds no credentials, otherwise run the wrapped
view. -/
def requires_auth (s : Session) (body : RouteResult × Session × List Event) :
    RouteResult × Session × List Event :=
  match s.oauth_credentials with
  | none => (.redirectLogin, s, [])
  | some _ => body

/-- The body of the `box_folder` view (app.py lines 29-35): run the
wrapped protected call, then build the page from the (possibly refreshed)
session's access token and the call's response.  An uncaught exception
surfaces as a server error. -/
def box_folder_body (env : Env) (now : Int) (s : Session) :
    RouteResult × Session × List Event :=
  match checked_auth env now s with
  | (.error e, s1, tr) => (.serverError e, s1, tr)
  | (.ok resp, s1, tr) =>
    match s1.oauth_credentials with
    | none => (.serverError .keyError, s1, tr)
    | some c =>
      match c.access_token with
      | none => (.serverError .keyError, s1, tr)
      | some tok => (.page tok resp, s1, tr)

/-- The full `/box-folder/<id>` route (app.py lines 27-35):
`requires_auth` guarding `box_folder_body`. -/
def box_folder_route (env : Env) (now : Int) (s : Session) :
    RouteResult × Session × List Event :=
  requires_auth s (box_folder_body env now s)

/-- Embeds `logout` (app.py lines 54-57): `session.clear()` removes both
keys. -/
def logout (_s : Session) : Session := ⟨none, none⟩

/-! ## Claims -/

/-- C7: for every stored Expiry Instant `e` and current time `t`, the
expiry decision returns exactly `t > e`; at the boundary `t = e` the token
is judged not expired.  The decision is a pure function of the session and
the clock (no session mutation, no trace). -/
theorem expiry_policy_strict_gt (c : Option OAuthResponse) (e t : Int) :
    oauth_credentials_are_expired ⟨c, some e⟩ t = Except.ok (decide (t > e)) ∧
    oauth_credentials_are_expired ⟨c, some e⟩ e = Except.ok false :=
  ⟨rfl, by simp [oauth_credentials_are_expired]⟩

/-- C8: a successful token response with numeric `expires_in = n` processed
at time `now` stores the Expiry Instant `now + (n - 15)`; in particular
`expires_in = 3600` stores `now + 3585`. -/
theorem stored_expiry_margin (s : Session) (now : Int) (a rt : Option String) (n : Int) :
    set_oauth_credentials s now (some ⟨a, rt, some n⟩)
      = (Except.ok (), ⟨some ⟨a, rt, some n⟩, some (now + (n - 15))⟩) ∧
    set_oauth_credentials s now (some ⟨a, rt, some 3600⟩)
      = (Except.ok (), ⟨some ⟨a, rt, some 3600⟩, some (now + 3585)⟩) :=
  ⟨rfl, by norm_num [set_oauth_credentials]⟩

/-- C6: session-touching operations keep the two stored fields in lockstep:
`logout` removes both; a successful store writes both fields from the same
response and the same clock reading; a failing store (missing `expires_in`,
or an unparseable response) leaves the session exactly as it was —
the two fields are replaced or removed together, never one without the
other. -/
theorem session_pair_atomicity (s : Session) (now : Int) (a rt : Option String) (n : Int) :
    logout s = ⟨none, none⟩ ∧
    set_oauth_credentials s now (some ⟨a, rt, some n⟩)
      = (Except.ok (), ⟨some ⟨a, rt, some n⟩, some (now + (n - 15))⟩) ∧
    (set_oauth_credentials s now (some ⟨a, rt, none⟩)).2 = s ∧
    (set_oauth_credentials s now none).2 = s :=
  ⟨rfl, rfl, rfl, rfl⟩

/-- C10: a token response lacking a numeric `expires_in` makes
`set_oauth_credentials` raise (`TypeError` from `None - 15`) before either
session key is written, so the stored Credential Set and Expiry Instant
are both left unchanged. -/
theorem missing_expires_in_no_mutation (s : Session) (now : Int) (a rt : Option String) :
    set_oauth_credentials s now (some ⟨a, rt, none⟩) = (Except.error PyError.typeError, s) :=
  rfl

/-- C5: a session holding no Credential Set gets a redirect to the login
route, with an empty network trace (no token exchange, no protected call)
and an unchanged session, whatever the stored expiration field holds —
so the check precedes the expiry check, which would raise on such a
session. -/
theorem unauthenticated_redirect_precedes_all (env : Env) (now : Int) (exp1 : Option Int) :
    box_folder_route env now ⟨none, exp1⟩
      = (RouteResult.redirectLogin, ⟨none, exp1⟩, ([] : List Event)) :=
  rfl

/-- C3 counterexample: `get_token` returns success on a parsed response
whose required `access_token` field is absent — it signals no failure for
missing required fields, contradicting the claim. -/
theorem get_token_missing_field_not_rejected :
    get_token (TransportResult.response (some ⟨none, some "rt", some 3600⟩))
      = Except.ok (some ⟨none, some "rt", some 3600⟩) ∧
    (⟨none, some "rt", some 3600⟩ : OAuthResponse).access_token = none :=
  ⟨rfl, rfl⟩

/-- C3 (amended): `get_token` propagates a transport failure as a raised
exception and otherwise returns the parsed response body unchanged —
`none` for an unparseable body, and with no validation of `access_token`,
`refresh_token` or `expires_in`. -/
theorem get_token_passthrough (e : PyError) (b : Option OAuthResponse) :
    get_token (TransportResult.failure e) = Except.error e ∧
    get_token (TransportResult.response b) = Except.ok b :=
  ⟨rfl, rfl⟩

/-- C1: from a session whose tokens are not expired (`¬ now > e0`), a 401
on the first protected call leads to exactly one reactive token exchange
followed by exactly one retried protected call, and the wrapper returns
the retried call's response verbatim — the conclusion places no condition
on `env.callResults 1 tokNew`, so it holds in particular when that
response is again a 401, and the trace shows no further exchange or call. -/
theorem wrapper_reactive_refresh_once (env : Env) (now e0 n : Int)
    (tokOld tokNew rt : String) (rr : Option String) (eio : Option Int)
    (hNotExp : ¬ now > e0)
    (h401 : (env.callResults 0 tokOld).status_code = 401)
    (hTok : env.tokenResults 0 = TransportResult.response (some ⟨some tokNew, rr, some n⟩)) :
    checked_auth env now ⟨some ⟨some tokOld, some rt, eio⟩, some e0⟩
      = (Except.ok (env.callResults 1 tokNew),
         ⟨some ⟨some tokNew, rr, some n⟩, some (now + (n - 15))⟩,
         [Event.protectedCall 0 tokOld, Event.tokenExchange 0,
          Event.protectedCall 1 tokNew]) := by
  simp [checked_auth, oauth_credentials_are_expired, hNotExp, afterFirstCall,
        get_box_folder_body, h401, refresh_oauth_credentials, get_token, hTok,
        set_oauth_credentials]

/-- Concrete oracle for the reactive-refresh scenario: the token endpoint
always answers with a fresh credential set, the first protected call is a
401, the retry succeeds. -/
def envReactive : Env :=
  ⟨fun _ => TransportResult.response (some ⟨some "t1", some "r1", some 20⟩),
   fun i _ => if i = 0 then ⟨401, none⟩ else ⟨200, some "folder"⟩⟩

/-- C1 witness: the reactive-refresh theorem evaluated on `envReactive`. -/
theorem wrapper_reactive_refresh_once_witness :
    checked_auth envReactive 100 ⟨some ⟨some "t0", some "r0", none⟩, some 200⟩
      = (Except.ok (envReactive.callResults 1 "t1"),
         ⟨some ⟨some "t1", some "r1", some 20⟩, some (100 + (20 - 15))⟩,
         [Event.protectedCall 0 "t0", Event.tokenExchange 0,
          Event.protectedCall 1 "t1"]) :=
  wrapper_reactive_refresh_once envReactive 100 200 20 "t0" "t1" "r0" (some "r1") none
    (by decide) rfl rfl

/-- C9: in the reactive-refresh scenario of C1, the retried protected call
reads its bearer token from the Token Store at retry time: the last trace
event carries `tokNew`, the `access_token` of the newly exchanged
credential set, and the wrapper's result is the response to a request made
with that bearer — not with the token the failed first attempt used. -/
theorem retry_uses_refreshed_token (env : Env) (now e0 n : Int)
    (tokOld tokNew rt : String) (rr : Option String) (eio : Option Int)
    (hNotExp : ¬ now > e0)
    (h401 : (env.callResults 0 tokOld).status_code = 401)
    (hTok : env.tokenResults 0 = TransportResult.response (some ⟨some tokNew, rr, some n⟩)) :
    (checked_auth env now ⟨some ⟨some tokOld, some rt, eio⟩, some e0⟩).2.2.getLast?
      = some (Event.protectedCall 1 tokNew) ∧
    (checked_auth env now ⟨some ⟨some tokOld, some rt, eio⟩, some e0⟩).1
      = Except.ok (env.callResults 1 tokNew) := by
  simp [checked_auth, oauth_credentials_are_expired, hNotExp, afterFirstCall,
        get_box_folder_body, h401, refresh_oauth_credentials, get_token, hTok,
        set_oauth_credentials]

/-- C9 witness: the retried call on `envReactive` carries the refreshed
token `t1`. -/
theorem retry_uses_refreshed_token_witness :
    (checked_auth envReactive 100 ⟨some ⟨some "t0", some "r0", none⟩, some 200⟩).2.2.getLast?
      = some (Event.protectedCall 1 "t1") ∧
    (checked_auth envReactive 100 ⟨some ⟨some "t0", some "r0", none⟩, some 200⟩).1
      = Except.ok (envReactive.callResults 1 "t1") :=
  retry_uses_refreshed_token envReactive 100 200 20 "t0" "t1" "r0" (some "r1") none
    (by decide) rfl rfl

/-- C2: when the stored Expiry Instant is strictly in the past
(`now > e0`), the wrapper performs exactly one token exchange before the
first protected call — the invocation continues as `afterFirstCall` on the
already-refreshed session, whose stored credential set and Expiry Instant
come from the exchange's response, and the trace starts with the exchange
followed by a protected call bearing the new token.  When the Expiry
Instant is not in the past, no proactive exchange happens: the first trace
event is the protected call itself, with the old token. -/
theorem wrapper_proactive_refresh_order (env : Env) (now e0 n : Int)
    (tokOld tokNew rt : String) (rr : Option String) (eio : Option Int)
    (hTok : env.tokenResults 0 = TransportResult.response (some ⟨some tokNew, rr, some n⟩)) :
    (now > e0 →
       checked_auth env now ⟨some ⟨some tokOld, some rt, eio⟩, some e0⟩
         = afterFirstCall env now ⟨some ⟨some tokNew, rr, some n⟩, some (now + (n - 15))⟩ 1
             [Event.tokenExchange 0] ∧
       (checked_auth env now ⟨some ⟨some tokOld, some rt, eio⟩, some e0⟩).2.2.take 2
         = [Event.tokenExchange 0, Event.protectedCall 0 tokNew]) ∧
    (¬ now > e0 →
       checked_auth env now ⟨some ⟨some tokOld, some rt, eio⟩, some e0⟩
         = afterFirstCall env now ⟨some ⟨some tokOld, some rt, eio⟩, some e0⟩ 0 [] ∧
       (checked_auth env now ⟨some ⟨some tokOld, some rt, eio⟩, some e0⟩).2.2.take 1
         = [Event.protectedCall 0 tokOld]) := by
  constructor
  · intro h
    have hmain : checked_auth env now ⟨some ⟨some tokOld, some rt, eio⟩, some e0⟩
        = afterFirstCall env now ⟨some ⟨some tokNew, rr, some n⟩, some (now + (n - 15))⟩ 1
            [Event.tokenExchange 0] := by
      simp [checked_auth, oauth_credentials_are_expired, h,
            refresh_oauth_credentials, get_token, hTok, set_oauth_credentials]
    refine ⟨hmain, ?_⟩
    rw [hmain]
    unfold afterFirstCall
    simp only [get_box_folder_body]
    cases h4 : (env.callResults 0 tokNew).status_code == 401 with
    | false => simp [h4]
    | true =>
      rcases hR : refresh_oauth_credentials
          ⟨some ⟨some tokNew, rr, some n⟩, some (now + (n - 15))⟩ now (env.tokenResults 1) 1
        with ⟨r1, s2, tr2⟩
      cases r1 with
      | error e => simp [h4, hR]
      | ok u => split <;> (try split) <;> (try split) <;> simp
  · intro h
    have hmain : checked_auth env now ⟨some ⟨some tokOld, some rt, eio⟩, some e0⟩
        = afterFirstCall env now ⟨some ⟨some tokOld, some rt, eio⟩, some e0⟩ 0 [] := by
      simp [checked_auth, oauth_credentials_are_expired, h]
    refine ⟨hmain, ?_⟩
    rw [hmain]
    unfold afterFirstCall
    simp only [get_box_folder_body]
    cases h4 : (env.callResults 0 tokOld).status_code == 401 with
    | false => simp [h4]
    | true =>
      rcases hR : refresh_oauth_credentials
          ⟨some ⟨some tokOld, some rt, eio⟩, some e0⟩ now (env.tokenResults 0) 0
        with ⟨r1, s2, tr2⟩
      cases r1 with
      | error e => simp [h4, hR]
      | ok u => split <;> (try split) <;> (try split) <;> simp

/-- Concrete oracle for the proactive scenarios: token endpoint always
answers with a fresh credential set, every protected call succeeds. -/
def envQuiet : Env :=
  ⟨fun _ => TransportResult.response (some ⟨some "t1", some "r1", some 30⟩),
   fun _ _ => ⟨200, some "folder"⟩⟩

/-- C2 witness: on `envQuiet`, an expired session (expiry 50, now 100)
refreshes once before the first call, which carries the new token; an
unexpired session (expiry 200, now 100) starts directly with the
protected call carrying the old token. -/
theorem wrapper_proactive_refresh_order_witness :
    (checked_auth envQuiet 100 ⟨some ⟨some "t0", some "r0", none⟩, some 50⟩).2.2.take 2
      = [Event.tokenExchange 0, Event.protectedCall 0 "t1"] ∧
    (checked_auth envQuiet 100 ⟨some ⟨some "t0", some "r0", none⟩, some 200⟩).2.2.take 1
      = [Event.protectedCall 0 "t0"] :=
  ⟨((wrapper_proactive_refresh_order envQuiet 100 50 30 "t0" "t1" "r0" (some "r1") none
      rfl).1 (by decide)).2,
   ((wrapper_proactive_refresh_order envQuiet 100 200 30 "t0" "t1" "r0" (some "r1") none
      rfl).2 (by decide)).2⟩

/-- Helper: a refresh never performs a protected call — its trace holds at
most the token exchange it attempted. -/
theorem refresh_trace_no_call (s : Session) (now : Int) (ex : TransportResult)
    (idx i : Nat) (t : String) :
    Event.protectedCall i t ∉ (refresh_oauth_credentials s now ex idx).2.2 := by
  unfold refresh_oauth_credentials
  split
  · simp
  · split
    · simp
    · split
      · simp
      · split <;> simp

/-- C4: when the proactive refresh fails — for any reason the code can
fail there: transport error, unparseable body, missing `expires_in` —
the wrapper propagates that failure to the caller and never attempts the
protected call: its outcome is the refresh's error and its trace holds no
protected-call event. -/
theorem proactive_refresh_failure_propagates (env : Env) (now e0 : Int) (s : Session)
    (err : PyError)
    (hS : s.oauth_expiration = some e0) (hExp : now > e0)
    (hFail : (refresh_oauth_credentials s now (env.tokenResults 0) 0).1
      = Except.error err) :
    (checked_auth env now s).1 = Except.error err ∧
    ∀ i t, Event.protectedCall i t ∉ (checked_auth env now s).2.2 := by
  rcases hR : refresh_oauth_credentials s now (env.tokenResults 0) 0 with ⟨r1, s1, tr1⟩
  rw [hR] at hFail
  simp only at hFail
  subst hFail
  have hE : oauth_credentials_are_expired s now = Except.ok true := by
    simp [oauth_credentials_are_expired, hS, hExp]
  have hchecked : checked_auth env now s = (Except.error err, s1, tr1) := by
    simp [checked_auth, hE, hR]
  rw [hchecked]
  refine ⟨rfl, fun i t => ?_⟩
  have hmem := refresh_trace_no_call s now (env.tokenResults 0) 0 i t
  rw [hR] at hmem
  exact hmem

/-- Concrete oracle whose token endpoint always fails at the transport
level, so any attempted refresh raises. -/
def envFail : Env :=
  ⟨fun _ => TransportResult.failure PyError.transportError,
   fun _ _ => ⟨200, some "folder"⟩⟩

/-- C4 witness: on `envFail`, an expired session (expiry 5, now 10)
propagates the transport error and performs no protected call. -/
theorem proactive_refresh_failure_propagates_witness :
    (checked_auth envFail 10 ⟨some ⟨some "t", some "r", none⟩, some 5⟩).1
      = Except.error PyError.transportError ∧
    Event.protectedCall 0 "t" ∉
      (checked_auth envFail 10 ⟨some ⟨some "t", some "r", none⟩, some 5⟩).2.2 :=
  ⟨(proactive_refresh_failure_propagates envFail 10 5
      ⟨some ⟨some "t", some "r", none⟩, some 5⟩ PyError.transportError rfl (by decide) rfl).1,
   (proactive_refresh_failure_propagates envFail 10 5
      ⟨some ⟨some "t", some "r", none⟩, some 5⟩ PyError.transportError rfl (by decide) rfl).2
     0 "t"⟩
